import Mathlib

/-!
Verification of the openfda core components: the NDC normalizer
(`normalizeNDC`), the URL builder (`OpenFDABuilder`), and the request
executor (`makeOpenFDARequest`).

Strings are modelled as `List Char`; JavaScript string operations
(`trim`, `toUpperCase`, `split`, `includes`, `substring`) are embedded as
the list functions below.
-/

/-- JS `String.prototype.trim`: drop whitespace from both ends. -/
def jsTrim (l : List Char) : List Char :=
  ((l.dropWhile Char.isWhitespace).reverse.dropWhile Char.isWhitespace).reverse

/-- JS `String.prototype.toUpperCase` (ASCII fragment). -/
def jsToUpper (l : List Char) : List Char :=
  l.map Char.toUpper

/-- JS `String.prototype.split` with a single-character separator. -/
def splitOnChar (sep : Char) : List Char → List (List Char)
  | [] => [[]]
  | c :: cs =>
    match splitOnChar sep cs with
    | [] => [[]]
    | g :: gs => if c = sep then [] :: g :: gs else (c :: g) :: gs

/-- JS `String.prototype.includes` on list-modelled strings. -/
def jsIncludesSub (needle : List Char) : List Char → Bool
  | [] => needle.isEmpty
  | c :: cs => needle.isPrefixOf (c :: cs) || jsIncludesSub needle cs

/-- Result record of `normalizeNDC` (`{productNDC, packageNDC, isValid}`). -/
structure NDCResult where
  productNDC : List Char
  packageNDC : Option (List Char)
  isValid : Bool
deriving Repr, DecidableEq

/-- The regex `/^\d{5}-\d{4}$/` used for the final validity test. -/
def productPattern (l : List Char) : Bool :=
  l.length == 10 && (l.take 5).all Char.isDigit && l[5]? == some '-' &&
    (l.drop 6).all Char.isDigit

/--
The branch structure of `normalizeNDC` acting on the cleaned input:
`none` encodes the early `isValid:false` returns (wrong segment count or
wrong undashed length), `some (productNDC, packageNDC)` the four
recognized shapes.  `substring(0,5)` is `take 5`, `substring(5,9)` is
`(drop 5).take 4`, `substring(9,11)` is `(drop 9).take 2`.
-/
def normalizeCore (cleanNDC : List Char) : Option (List Char × Option (List Char)) :=
  if cleanNDC.contains '-' then
    match splitOnChar '-' cleanNDC with
    | [_, _] => some (cleanNDC, none)
    | [p0, p1, _] => some (p0 ++ '-' :: p1, some cleanNDC)
    | _ => none
  else if cleanNDC.length = 11 then
    some (cleanNDC.take 5 ++ '-' :: (cleanNDC.drop 5).take 4,
      some (cleanNDC.take 5 ++ '-' ::
        ((cleanNDC.drop 5).take 4 ++ '-' :: (cleanNDC.drop 9).take 2)))
  else if cleanNDC.length = 9 then
    some (cleanNDC.take 5 ++ '-' :: (cleanNDC.drop 5).take 4, none)
  else none

/-- `normalizeNDC` from the tool-registration module: trim and uppercase,
parse by shape, then validate the derived product code against
`/^\d{5}-\d{4}$/`. -/
def normalizeNDC (ndc : List Char) : NDCResult :=
  let cleanNDC := jsToUpper (jsTrim ndc)
  match normalizeCore cleanNDC with
  | none => { productNDC := cleanNDC, packageNDC := none, isValid := false }
  | some (p, pk) => { productNDC := p, packageNDC := pk, isValid := productPattern p }

/-- The four layouts the claim recognizes, with segment counts for dashed
inputs and digit counts for undashed inputs, following the claim's words. -/
def specRecognizedLayout (l : List Char) : Bool :=
  (l.contains '-' && (splitOnChar '-' l).length == 2) ||
  (l.contains '-' && (splitOnChar '-' l).length == 3) ||
  (l.length == 11 && l.all Char.isDigit) ||
  (l.length == 9 && l.all Char.isDigit)

/-- The four layouts the code actually tests for: segment counts for
dashed inputs, raw character counts (no digit requirement) otherwise. -/
def codeRecognizedLayout (l : List Char) : Bool :=
  if l.contains '-' then
    (splitOnChar '-' l).length == 2 || (splitOnChar '-' l).length == 3
  else
    l.length == 11 || l.length == 9

theorem digit_ne_of (c d : Char) (h : c.isDigit = true) (hd : d.isDigit = false) : ¬ c = d := by
  intro he
  rw [he] at h
  rw [h] at hd
  cases hd

theorem digit_not_ws (c : Char) (h : c.isDigit = true) : c.isWhitespace = false := by
  simp [Char.isWhitespace, digit_ne_of c ' ' h (by decide), digit_ne_of c '\t' h (by decide),
    digit_ne_of c '\x0d' h (by decide), digit_ne_of c '\n' h (by decide)]

theorem digit_toUpper (c : Char) (h : c.isDigit = true) : c.toUpper = c := by
  simp [Char.isDigit] at h
  have h2 : c.val.toNat ≤ 57 := h.2
  rw [Char.toUpper]
  have hcon : ¬(97 ≤ c.toNat ∧ c.toNat ≤ 122) := by
    intro hc
    have := hc.1
    simp [Char.toNat] at this
    omega
  simp [hcon]

theorem digit_ne_dash (c : Char) (h : c.isDigit = true) : c ≠ '-' :=
  digit_ne_of c '-' h (by decide)

theorem dropWhile_eq_self_of (p : Char → Bool) (l : List Char)
    (h : ∀ c ∈ l, p c = false) : l.dropWhile p = l := by
  cases l with
  | nil => rfl
  | cons a as => simp [List.dropWhile, h a (by simp)]

theorem jsTrim_eq_self (l : List Char) (h : ∀ c ∈ l, c.isWhitespace = false) :
    jsTrim l = l := by
  unfold jsTrim
  rw [dropWhile_eq_self_of _ _ h]
  rw [dropWhile_eq_self_of _ _ (fun c hc => h c (List.mem_reverse.mp hc))]
  exact List.reverse_reverse l

theorem jsToUpper_eq_self (l : List Char) (h : ∀ c ∈ l, c.toUpper = c) :
    jsToUpper l = l := by
  unfold jsToUpper
  induction l with
  | nil => rfl
  | cons a as ih =>
    simp only [List.map_cons, h a (by simp)]
    rw [ih (fun c hc => h c (List.mem_cons_of_mem a hc))]

theorem splitOnChar_no_sep (sep : Char) (l : List Char)
    (h : ∀ c ∈ l, c ≠ sep) : splitOnChar sep l = [l] := by
  induction l with
  | nil => rfl
  | cons a as ih =>
    rw [splitOnChar, ih (fun c hc => h c (List.mem_cons_of_mem a hc))]
    simp [h a (by simp)]

theorem splitOnChar_around (sep : Char) (xs ys : List Char)
    (hxs : ∀ c ∈ xs, c ≠ sep) (hys : ∀ c ∈ ys, c ≠ sep) :
    splitOnChar sep (xs ++ sep :: ys) = [xs, ys] := by
  induction xs with
  | nil =>
    rw [List.nil_append, splitOnChar, splitOnChar_no_sep sep ys hys]
    simp
  | cons a as ih =>
    rw [List.cons_append, splitOnChar, ih (fun c hc => hxs c (List.mem_cons_of_mem a hc))]
    simp [hxs a (by simp)]

theorem productPattern_decomp (l : List Char) (h : productPattern l = true) :
    l = l.take 5 ++ '-' :: l.drop 6 ∧ (∀ c ∈ l.take 5, c.isDigit = true) ∧
      (∀ c ∈ l.drop 6, c.isDigit = true) := by
  simp only [productPattern, Bool.and_eq_true, beq_iff_eq, List.all_eq_true] at h
  obtain ⟨⟨⟨hlen, htake⟩, hget⟩, hdrop⟩ := h
  have h5 : 5 < l.length := by omega
  obtain ⟨_, hat⟩ := List.getElem?_eq_some.mp hget
  refine ⟨?_, fun c hc => htake c hc, fun c hc => hdrop c hc⟩
  conv_lhs => rw [← List.take_append_drop 5 l]
  rw [List.drop_eq_getElem_cons h5, hat]

theorem normalizeNDC_pattern_fixed (p : List Char) (hp : productPattern p = true) :
    normalizeNDC p = { productNDC := p, packageNDC := none, isValid := true } := by
  obtain ⟨hdec, hdig1, hdig2⟩ := productPattern_decomp p hp
  have hall : ∀ c ∈ p, c.isDigit = true ∨ c = '-' := by
    intro c hc
    rw [hdec] at hc
    rcases List.mem_append.mp hc with h1 | h2
    · exact Or.inl (hdig1 c h1)
    · rcases List.mem_cons.mp h2 with h3 | h4
      · exact Or.inr h3
      · exact Or.inl (hdig2 c h4)
  have htrim : jsTrim p = p := by
    refine jsTrim_eq_self p (fun c hc => ?_)
    rcases hall c hc with hd | he
    · exact digit_not_ws c hd
    · rw [he]; decide
  have hupper : jsToUpper p = p := by
    refine jsToUpper_eq_self p (fun c hc => ?_)
    rcases hall c hc with hd | he
    · exact digit_toUpper c hd
    · rw [he]; decide
  have hsplit : splitOnChar '-' p = [p.take 5, p.drop 6] := by
    conv_lhs => rw [hdec]
    exact splitOnChar_around '-' _ _ (fun c hc => digit_ne_dash c (hdig1 c hc))
      (fun c hc => digit_ne_dash c (hdig2 c hc))
  have hcontains : p.contains '-' = true := by
    rw [hdec]
    simp
  simp only [normalizeNDC, htrim, hupper, normalizeCore, hcontains, if_true, hsplit, hp]

theorem normalizeNDC_valid_pattern (s : List Char) (h : (normalizeNDC s).isValid = true) :
    productPattern (normalizeNDC s).productNDC = true := by
  simp only [normalizeNDC] at h ⊢
  rcases hc : normalizeCore (jsToUpper (jsTrim s)) with _ | ⟨p, pk⟩
  · rw [hc] at h
    simp at h
  · rw [hc] at h
    simpa using h

/-- C2 (amended): for every input whose cleaned form is not one of the four
shapes the code tests (2-segment dashed, 3-segment dashed, 11 characters
without dashes, 9 characters without dashes — raw character counts, with no
digit requirement), `normalizeNDC` returns `isValid = false`, the cleaned
input as `productNDC`, and `packageNDC = none`; and `packageNDC` is non-none
only when the cleaned input was 3-segment dashed or 11 characters dashless. -/
theorem normalizeNDC_fallback_package_only (ndc : List Char) :
    (codeRecognizedLayout (jsToUpper (jsTrim ndc)) = false →
      normalizeNDC ndc =
        { productNDC := jsToUpper (jsTrim ndc), packageNDC := none, isValid := false }) ∧
    ((normalizeNDC ndc).packageNDC ≠ none →
      ((jsToUpper (jsTrim ndc)).contains '-' = true ∧
        (splitOnChar '-' (jsToUpper (jsTrim ndc))).length = 3) ∨
      ((jsToUpper (jsTrim ndc)).contains '-' = false ∧
        (jsToUpper (jsTrim ndc)).length = 11)) := by
  by_cases hdash : '-' ∈ jsToUpper (jsTrim ndc)
  · rcases hsp : splitOnChar '-' (jsToUpper (jsTrim ndc)) with
      _ | ⟨g0, _ | ⟨g1, _ | ⟨g2, _ | ⟨g3, gs⟩⟩⟩⟩ <;>
      simp [normalizeNDC, normalizeCore, codeRecognizedLayout, hdash, hsp]
  · by_cases h11 : (jsToUpper (jsTrim ndc)).length = 11
    · simp [normalizeNDC, normalizeCore, codeRecognizedLayout, hdash, h11]
    · by_cases h9 : (jsToUpper (jsTrim ndc)).length = 9
      · simp [normalizeNDC, normalizeCore, codeRecognizedLayout, hdash, h11, h9]
      · simp [normalizeNDC, normalizeCore, codeRecognizedLayout, hdash, h11, h9]

/-- C2 counterexample: the input `"ABCDEFGHIJK"` (11 non-digit characters,
no dashes) is not one of the claim's four recognized layouts, yet
`normalizeNDC` does not fall back to the cleaned input: it segments it as
`"ABCDE-FGHI"` and sets `packageNDC = some "ABCDE-FGHI-JK"`, so `packageNDC`
is non-none for an input that encoded no 11-digit or 3-segment code. -/
theorem normalizeNDC_digit_layout_cex :
    specRecognizedLayout (jsToUpper (jsTrim "ABCDEFGHIJK".toList)) = false ∧
    jsToUpper (jsTrim "ABCDEFGHIJK".toList) = "ABCDEFGHIJK".toList ∧
    ¬ ((normalizeNDC "ABCDEFGHIJK".toList).isValid = false ∧
       (normalizeNDC "ABCDEFGHIJK".toList).productNDC = "ABCDEFGHIJK".toList ∧
       (normalizeNDC "ABCDEFGHIJK".toList).packageNDC = none) ∧
    (normalizeNDC "ABCDEFGHIJK".toList).packageNDC = some "ABCDE-FGHI-JK".toList := by
  decide

/-- Witness for C2 (amended): a 4-segment input falls back to the cleaned
input with `packageNDC = none`, and a 3-segment input with non-none
`packageNDC` satisfies the shape disjunction. -/
theorem normalizeNDC_fallback_package_only_witness :
    codeRecognizedLayout (jsToUpper (jsTrim "12-34-56-78".toList)) = false ∧
    normalizeNDC "12-34-56-78".toList =
      { productNDC := jsToUpper (jsTrim "12-34-56-78".toList), packageNDC := none,
        isValid := false } ∧
    (normalizeNDC "123-45-6".toList).packageNDC ≠ none ∧
    (((jsToUpper (jsTrim "123-45-6".toList)).contains '-' = true ∧
        (splitOnChar '-' (jsToUpper (jsTrim "123-45-6".toList))).length = 3) ∨
      ((jsToUpper (jsTrim "123-45-6".toList)).contains '-' = false ∧
        (jsToUpper (jsTrim "123-45-6".toList)).length = 11)) :=
  ⟨by decide,
    (normalizeNDC_fallback_package_only "12-34-56-78".toList).1 (by decide),
    by decide,
    (normalizeNDC_fallback_package_only "123-45-6".toList).2 (by decide)⟩

/-- C9: for every valid 2-segment or 3-segment dashed NDC input,
re-normalizing the derived `productNDC` alone yields the same `productNDC`. -/
theorem normalizeNDC_idempotent_on_product (s : List Char)
    (hdash : (jsToUpper (jsTrim s)).contains '-' = true)
    (hseg : (splitOnChar '-' (jsToUpper (jsTrim s))).length = 2 ∨
      (splitOnChar '-' (jsToUpper (jsTrim s))).length = 3)
    (hvalid : (normalizeNDC s).isValid = true) :
    (normalizeNDC (normalizeNDC s).productNDC).productNDC = (normalizeNDC s).productNDC := by
  rw [normalizeNDC_pattern_fixed _ (normalizeNDC_valid_pattern s hvalid)]

/-- Witness for C9 at the package-form input `"12345-1234-01"`. -/
theorem normalizeNDC_idempotent_on_product_witness :
    ((jsToUpper (jsTrim "12345-1234-01".toList)).contains '-' = true ∧
      (splitOnChar '-' (jsToUpper (jsTrim "12345-1234-01".toList))).length = 3 ∧
      (normalizeNDC "12345-1234-01".toList).isValid = true) ∧
    (normalizeNDC (normalizeNDC "12345-1234-01".toList).productNDC).productNDC =
      (normalizeNDC "12345-1234-01".toList).productNDC :=
  ⟨⟨by decide, by decide, by decide⟩,
    normalizeNDC_idempotent_on_product "12345-1234-01".toList (by decide)
      (Or.inr (by decide)) (by decide)⟩

/-- The valid OpenFDA contexts (`ContextType`). -/
inductive ContextType where
  | ndc
  | label
  | event
deriving Repr, DecidableEq

/-- The string a `ContextType` value interpolates to in a JS template. -/
def ContextType.render : ContextType → String
  | .ndc => "ndc"
  | .label => "label"
  | .event => "event"

/-- The builder's `params` map: only the keys `"context"`, `"search"` and
`"limit"` are ever stored, each absent until its setter runs. -/
structure BuilderParams where
  context : Option ContextType := none
  search : Option String := none
  limit : Option Int := none
deriving Repr, DecidableEq

/-- `OpenFDABuilder`: the fixed base URL plus the params map. -/
structure OpenFDABuilder where
  url : String := "https://api.fda.gov/drug/"
  params : BuilderParams := {}
deriving Repr, DecidableEq

/-- `context(context)` setter. -/
def OpenFDABuilder.context (b : OpenFDABuilder) (c : ContextType) : OpenFDABuilder :=
  { b with params := { b.params with context := some c } }

/-- `search(query)` setter; stores the query verbatim. -/
def OpenFDABuilder.search (b : OpenFDABuilder) (query : String) : OpenFDABuilder :=
  { b with params := { b.params with search := some query } }

/-- `limit(max = 1)` setter with its default argument. -/
def OpenFDABuilder.limit (b : OpenFDABuilder) (max : Int := 1) : OpenFDABuilder :=
  { b with params := { b.params with limit := some max } }

/-- JS truthiness of the stored context: `undefined` is falsy; every
`ContextType` renders to a non-empty string, hence truthy. -/
def truthyContext : Option ContextType → Bool
  | none => false
  | some _ => true

/-- JS truthiness of the stored search string: `undefined` and `""` falsy. -/
def truthySearch : Option String → Bool
  | none => false
  | some s => !(s == "")

/-- JS truthiness of the stored limit number: `undefined` and `0` falsy. -/
def truthyLimit : Option Int → Bool
  | none => false
  | some n => !(n == 0)

/-- JS template interpolation of a possibly-undefined string. -/
def renderOptString : Option String → String
  | none => "undefined"
  | some s => s

/-- `OpenFDABuilder.build`: read the three params and the `OPENFDA_API_KEY`
environment value, throw on any falsy parameter (modelled as
`Except.error`), else compose the URL string. -/
def OpenFDABuilder.build (b : OpenFDABuilder) (apiKeyEnv : Option String) :
    Except String String :=
  if truthyContext b.params.context && truthySearch b.params.search &&
      truthyLimit b.params.limit then
    .ok (b.url ++
      (match b.params.context with | some c => c.render | none => "undefined") ++
      ".json?api_key=" ++ renderOptString apiKeyEnv ++ "&search=" ++
      renderOptString b.params.search ++ "&limit=" ++
      (match b.params.limit with | some n => toString n | none => "undefined"))
  else
    .error "Missing required parameters: context, search, or limit"

/-- A builder on which all three params were set, with `limit(0)`. -/
def builderLimitZero : OpenFDABuilder :=
  (({} : OpenFDABuilder).context .label |>.search "openfda.brand_name:a" |>.limit 0)

/-- C5 counterexample: a builder with context, search and limit all present
(`limit(0)`) still fails at `build()`, because the check uses JS falsiness
rather than absence; so "fails only when a parameter is absent, otherwise
returns the URL" is false. -/
theorem openFDABuilder_build_cex :
    builderLimitZero.params.context ≠ none ∧
    builderLimitZero.params.search ≠ none ∧
    builderLimitZero.params.limit ≠ none ∧
    builderLimitZero.build (some "KEY") =
      .error "Missing required parameters: context, search, or limit" :=
  ⟨by decide, by decide, by decide, rfl⟩

/-- C5 (amended): `build()` fails with the missing-parameter error when any
of context, search, limit is absent — and also when a present search is the
empty string or a present limit is `0` (JS falsiness) — and otherwise
returns exactly
`<base><context>.json?api_key=<credential>&search=<search>&limit=<limit>`,
with the credential read from the process environment at build time. -/
theorem openFDABuilder_build_spec (b : OpenFDABuilder) (key : Option String) :
    ((b.params.context = none ∨ b.params.search = none ∨ b.params.search = some "" ∨
        b.params.limit = none ∨ b.params.limit = some 0) →
      b.build key = .error "Missing required parameters: context, search, or limit") ∧
    (∀ c s l, b.params.context = some c → b.params.search = some s →
      b.params.limit = some l → s ≠ "" → l ≠ 0 →
      b.build key = .ok (b.url ++ c.render ++ ".json?api_key=" ++
        renderOptString key ++ "&search=" ++ s ++ "&limit=" ++ toString l)) := by
  constructor
  · intro h
    rcases h with h | h | h | h | h <;>
      simp [OpenFDABuilder.build, truthyContext, truthySearch, truthyLimit, h]
  · intro c s l hc hs hl hsne hlne
    simp [OpenFDABuilder.build, truthyContext, truthySearch, truthyLimit, hc, hs, hl,
      hsne, hlne, renderOptString]

/-- Witness for C5 (amended): a builder missing `limit` fails, and a fully
populated builder produces exactly the composed URL. -/
theorem openFDABuilder_build_spec_witness :
    (({} : OpenFDABuilder).context .label |>.search "q").build (some "KEY") =
      .error "Missing required parameters: context, search, or limit" ∧
    (({} : OpenFDABuilder).context .label |>.search "q" |>.limit 5).build (some "KEY") =
      .ok ("https://api.fda.gov/drug/" ++ ContextType.label.render ++ ".json?api_key=" ++
        renderOptString (some "KEY") ++ "&search=" ++ "q" ++ "&limit=" ++ toString (5 : Int)) :=
  ⟨(openFDABuilder_build_spec (({} : OpenFDABuilder).context .label |>.search "q")
      (some "KEY")).1 (by decide),
    (openFDABuilder_build_spec
      (({} : OpenFDABuilder).context .label |>.search "q" |>.limit 5) (some "KEY")).2
      .label "q" 5 (by decide) (by decide) (by decide) (by decide) (by decide)⟩

/-- C8: with context and search set, invoking `limit()` with no argument
stores the default `1` and `build()` then succeeds with `limit=1`, while a
builder on which `limit` was never invoked fails at `build()`. -/
theorem openFDABuilder_limit_default (c : ContextType) (s : String) (key : Option String)
    (hs : s ≠ "") :
    (({} : OpenFDABuilder).context c |>.search s |>.limit).build key =
      .ok ("https://api.fda.gov/drug/" ++ c.render ++ ".json?api_key=" ++
        renderOptString key ++ "&search=" ++ s ++ "&limit=1") ∧
    (({} : OpenFDABuilder).context c |>.search s).build key =
      .error "Missing required parameters: context, search, or limit" := by
  have h1 : toString (1 : Int) = "1" := rfl
  constructor
  · simp [OpenFDABuilder.build, OpenFDABuilder.context, OpenFDABuilder.search,
      OpenFDABuilder.limit, truthyContext, truthySearch, truthyLimit, hs, h1,
      renderOptString]
    rw [String.append_assoc]
    exact congrArg _ rfl
  · simp [OpenFDABuilder.build, OpenFDABuilder.context, OpenFDABuilder.search,
      truthyContext, truthySearch, truthyLimit, hs]

/-- Witness for C8 at `context = label`, `search = "q"`. -/
theorem openFDABuilder_limit_default_witness :
    ("q" ≠ "") ∧
    ((({} : OpenFDABuilder).context .label |>.search "q" |>.limit).build (some "KEY") =
      .ok ("https://api.fda.gov/drug/" ++ ContextType.label.render ++ ".json?api_key=" ++
        renderOptString (some "KEY") ++ "&search=" ++ "q" ++ "&limit=1") ∧
    (({} : OpenFDABuilder).context .label |>.search "q").build (some "KEY") =
      .error "Missing required parameters: context, search, or limit") :=
  ⟨by decide, openFDABuilder_limit_default .label "q" (some "KEY") (by decide)⟩

/-- `DEFAULT_CONFIG` of `OpenFDAClient.js`. -/
structure RequestConfig where
  maxRetries : Nat
  retryDelay : Nat
  timeout : Nat
deriving Repr, DecidableEq

def DEFAULT_CONFIG : RequestConfig :=
  { maxRetries := 3, retryDelay := 1000, timeout := 30000 }

/-- A caller-supplied partial config; `{ ...DEFAULT_CONFIG, ...config }`
takes the caller's field when present, the default otherwise. -/
structure ConfigOverride where
  maxRetries : Option Nat := none
  retryDelay : Option Nat := none
  timeout : Option Nat := none
deriving Repr, DecidableEq

def mergeConfig (config : ConfigOverride) : RequestConfig :=
  { maxRetries := config.maxRetries.getD DEFAULT_CONFIG.maxRetries,
    retryDelay := config.retryDelay.getD DEFAULT_CONFIG.retryDelay,
    timeout := config.timeout.getD DEFAULT_CONFIG.timeout }

/-- A parsed JSON value, as produced by `response.json()`. -/
inductive JsValue where
  | null
  | bool (b : Bool)
  | num (n : Int)
  | str (s : String)
  | arr (elems : List JsValue)
  | obj (fields : List (String × JsValue))
deriving Repr

/-- JS falsiness of a parsed JSON value (the `!parsedData` check). -/
def jsFalsy : JsValue → Bool
  | .null => true
  | .bool b => !b
  | .num n => n == 0
  | .str s => s == ""
  | _ => false

/-- The duck-typed shape `isRetryableError` inspects: `name`, `message`
and `status`, each possibly absent (the catch branch passes the caught
error; the HTTP branch passes a bare `{status}` object). -/
structure ErrorLike where
  name : Option String := none
  message : Option String := none
  status : Option Int := none
deriving Repr, DecidableEq

/-- `error.message.includes("fetch")`; never reached on an absent message
(short-circuit), modelled as false. -/
def messageIncludesFetch : Option String → Bool
  | none => false
  | some m => jsIncludesSub "fetch".toList m.toList

/-- `error.status >= lo && error.status <= hi`, false on an absent status. -/
def statusInRange (status : Option Int) (lo hi : Int) : Bool :=
  match status with
  | some s => decide (lo ≤ s ∧ s ≤ hi)
  | none => false

/-- `isRetryableError` from `OpenFDAClient.js`. -/
def isRetryableError (error : ErrorLike) : Bool :=
  if error.name = some "TypeError" ∧ messageIncludesFetch error.message = true then true
  else if error.name = some "AbortError" then true
  else if statusInRange error.status 500 599 = true then true
  else if error.status = some 429 then true
  else false

/-- The `type` discriminator of an `ErrorRecord`. -/
inductive ErrType where
  | http
  | network
  | timeout
  | parsing
  | empty_response
  | unknown
deriving Repr, DecidableEq

/-- A classified error (`{type, message, status?}`); the opaque `details`
field carries no behavior and is not modelled. -/
structure ErrorRecord where
  type : ErrType
  message : String
  status : Option Nat := none
deriving Repr, DecidableEq

/-- The `{data, error}` record `makeOpenFDARequest` resolves with. -/
structure RequestResult where
  data : Option JsValue
  error : Option ErrorRecord
deriving Repr

/-- A thrown JS exception as seen by the `catch` branch: its `name`, its
`message`, and a possibly-present `status` property (a plain thrown object
may carry one; ordinary errors do not). `instanceof TypeError` is modelled
as `name = "TypeError"`, the same test `isRetryableError` uses. -/
structure JsError where
  name : String
  message : String
  statusField : Option Int := none
deriving Repr, DecidableEq

/-- What one `fetch` attempt does: a completed response (status,
statusText, the `text()` body read on error paths, and the result of
`response.json()`, `Except.error msg` when parsing throws with message
`msg`), or a thrown exception (timeout `AbortError`, network `TypeError`,
or anything else). -/
inductive FetchOutcome where
  | response (status : Nat) (statusText : String) (errorText : String)
      (body : Except String JsValue)
  | thrown (e : JsError)
deriving Repr

/-- The status-specific message of the `http` error branch (the `switch`). -/
def httpMessage (status : Nat) (statusText : String) : String :=
  match status with
  | 400 => "Bad Request: Invalid search query or parameters"
  | 401 => "Unauthorized: Invalid or missing API key"
  | 403 => "Forbidden: API key may be invalid or quota exceeded"
  | 404 => "Not Found: No results found for the specified query"
  | 429 => "Rate Limited: Too many requests. Retrying..."
  | 500 => "Server Error: OpenFDA service is experiencing issues"
  | _ => s!"HTTP Error {status}: {statusText}"

/-- Classification of a caught exception (the `catch` branch). -/
def classifyCaught (e : JsError) (timeout : Nat) : ErrorRecord :=
  if e.name = "AbortError" then
    { type := .timeout, message := s!"Request timeout after {timeout}ms" }
  else if e.name = "TypeError" ∧ jsIncludesSub "fetch".toList e.message.toList = true then
    { type := .network, message := "Network error: Unable to connect to OpenFDA API" }
  else
    { type := .unknown, message := "Unexpected error: " ++
        (if e.message = "" then "Unknown error occurred" else e.message) }

/-- `response.ok`: status in the inclusive range 200–299. -/
def responseOk (status : Nat) : Bool :=
  decide (200 ≤ status ∧ status ≤ 299)

/-- An execution trace of `makeOpenFDARequest`: the returned result, the
number of fetch attempts performed, and the backoff delays slept, in
order. -/
structure ExecTrace where
  result : RequestResult
  attempts : Nat
  delays : List Nat
deriving Repr

/--
The retry loop of `makeOpenFDARequest`.  `env` gives the outcome of the
fetch at each attempt index; `attempt` is the loop counter; `fuel` is the
number of loop iterations remaining (`maxRetries + 1 - attempt`);
`lastError` is the `lastError` variable.  Every `break` returns
`{data: null, error: lastError}` with `lastError` freshly assigned, so the
terminal branches return their own error directly.
-/
def execLoop (env : Nat → FetchOutcome) (cfg : RequestConfig) :
    Nat → Nat → Option ErrorRecord → ExecTrace
  | _, 0, lastError =>
    { result := { data := none, error := lastError }, attempts := 0, delays := [] }
  | attempt, fuel + 1, _ =>
    match env attempt with
    | .response status statusText _ body =>
      if responseOk status = false then
        let httpError : ErrorRecord :=
          { type := .http, message := httpMessage status statusText, status := some status }
        if 400 ≤ status ∧ status < 500 ∧ status ≠ 429 then
          { result := { data := none, error := some httpError }, attempts := 1, delays := [] }
        else if attempt < cfg.maxRetries ∧
            isRetryableError { status := some (status : Int) } = true then
          let t := execLoop env cfg (attempt + 1) fuel (some httpError)
          { result := t.result, attempts := t.attempts + 1,
            delays := cfg.retryDelay * 2 ^ attempt :: t.delays }
        else
          { result := { data := none, error := some httpError }, attempts := 1, delays := [] }
      else
        match body with
        | .error parseMsg =>
          let parsingError : ErrorRecord :=
            { type := .parsing, message := s!"Failed to parse JSON response: {parseMsg}" }
          { result := { data := none, error := some parsingError },
            attempts := 1, delays := [] }
        | .ok parsedData =>
          if jsFalsy parsedData = true then
            let emptyError : ErrorRecord :=
              { type := .empty_response,
                message := "Received empty response from OpenFDA API" }
            { result := { data := none, error := some emptyError },
              attempts := 1, delays := [] }
          else
            { result := { data := some parsedData, error := none },
              attempts := 1, delays := [] }
    | .thrown e =>
      let networkError := classifyCaught e cfg.timeout
      if attempt < cfg.maxRetries ∧ isRetryableError
          { name := some e.name, message := some e.message, status := e.statusField } = true then
        let t := execLoop env cfg (attempt + 1) fuel (some networkError)
        { result := t.result, attempts := t.attempts + 1,
          delays := cfg.retryDelay * 2 ^ attempt :: t.delays }
      else
        { result := { data := none, error := some networkError }, attempts := 1, delays := [] }

/-- `makeOpenFDARequest(url, config)`: merge the config over the defaults
and run the loop from attempt 0 with `maxRetries + 1` iterations available
and `lastError = null`. -/
def makeOpenFDARequest (env : Nat → FetchOutcome) (config : ConfigOverride) : ExecTrace :=
  let cfg := mergeConfig config
  execLoop env cfg 0 (cfg.maxRetries + 1) none

/-- C7: the caller's config overrides exactly the fields it supplies
(`maxRetries`, retry delay, timeout); every unspecified field takes its
default (3, 1000 ms, 30000 ms), and `makeOpenFDARequest` runs on the
merged config. -/
theorem requestConfig_override_defaults (env : Nat → FetchOutcome) (config : ConfigOverride) :
    (∀ n, config.maxRetries = some n → (mergeConfig config).maxRetries = n) ∧
    (config.maxRetries = none → (mergeConfig config).maxRetries = 3) ∧
    (∀ n, config.retryDelay = some n → (mergeConfig config).retryDelay = n) ∧
    (config.retryDelay = none → (mergeConfig config).retryDelay = 1000) ∧
    (∀ n, config.timeout = some n → (mergeConfig config).timeout = n) ∧
    (config.timeout = none → (mergeConfig config).timeout = 30000) ∧
    makeOpenFDARequest env config =
      execLoop env (mergeConfig config) 0 ((mergeConfig config).maxRetries + 1) none := by
  refine ⟨fun n h => ?_, fun h => ?_, fun n h => ?_, fun h => ?_, fun n h => ?_,
    fun h => ?_, rfl⟩ <;> simp [mergeConfig, DEFAULT_CONFIG, h]

/-- Witness for C7: overriding `maxRetries` and `timeout` only. -/
theorem requestConfig_override_defaults_witness :
    (mergeConfig { maxRetries := some 0, timeout := some 5 }).maxRetries = 0 ∧
    (mergeConfig { maxRetries := some 0, timeout := some 5 }).retryDelay = 1000 ∧
    (mergeConfig { maxRetries := some 0, timeout := some 5 }).timeout = 5 :=
  ⟨(requestConfig_override_defaults (fun _ => .thrown { name := "E", message := "" })
      { maxRetries := some 0, timeout := some 5 }).1 0 rfl,
   (requestConfig_override_defaults (fun _ => .thrown { name := "E", message := "" })
      { maxRetries := some 0, timeout := some 5 }).2.2.2.1 rfl,
   (requestConfig_override_defaults (fun _ => .thrown { name := "E", message := "" })
      { maxRetries := some 0, timeout := some 5 }).2.2.2.2.1 5 rfl⟩

/-- C4: non-retryable classifications terminate after the single attempt:
a 404 on the first attempt yields the `http` error with exactly one
attempt and no sleeps, and a 2xx whose body fails to parse yields the
`parsing` error with exactly one attempt, regardless of `maxRetries`. -/
theorem request_terminal_no_retry (env : Nat → FetchOutcome) (config : ConfigOverride)
    (st et : String) (body : Except String JsValue) (status : Nat) (pmsg : String) :
    (env 0 = .response 404 st et body →
      makeOpenFDARequest env config =
        ⟨⟨none, some ⟨.http, httpMessage 404 st, some 404⟩⟩, 1, []⟩) ∧
    (env 0 = .response status st et (.error pmsg) → 200 ≤ status → status ≤ 299 →
      makeOpenFDARequest env config =
        ⟨⟨none, some ⟨.parsing, s!"Failed to parse JSON response: {pmsg}", none⟩⟩, 1, []⟩) := by
  constructor
  · intro henv
    simp [makeOpenFDARequest, execLoop, henv, responseOk]
  · intro henv h1 h2
    have hok : responseOk status = true := by
      simp [responseOk]
      omega
    simp [makeOpenFDARequest, execLoop, henv, hok]

/-- Witness for C4: a 404 environment and a parse-failure environment. -/
theorem request_terminal_no_retry_witness :
    makeOpenFDARequest (fun _ => .response 404 "Not Found" "nf" (.ok .null)) {} =
      ⟨⟨none, some ⟨.http, httpMessage 404 "Not Found", some 404⟩⟩, 1, []⟩ ∧
    makeOpenFDARequest (fun _ => .response 200 "OK" "" (.error "bad token")) {} =
      ⟨⟨none, some ⟨.parsing, "Failed to parse JSON response: bad token", none⟩⟩, 1, []⟩ :=
  ⟨(request_terminal_no_retry (fun _ => .response 404 "Not Found" "nf" (.ok .null)) {}
      "Not Found" "nf" (.ok .null) 200 "x").1 rfl,
   (request_terminal_no_retry (fun _ => .response 200 "OK" "" (.error "bad token")) {}
      "OK" "" (.ok .null) 200 "bad token").2 rfl (by decide) (by decide)⟩

/-- C10: whenever an attempt's response is 2xx and the body parses to a
falsy JSON value, the loop terminates on that attempt with the
`empty_response` error; the `!parsedData` check rejects every falsy parsed
value — `null`, `false`, `0` and `""` — not only an absent payload. -/
theorem request_empty_on_falsy (env : Nat → FetchOutcome) (cfg : RequestConfig)
    (attempt fuel : Nat) (lastError : Option ErrorRecord) (status : Nat) (st et : String)
    (v : JsValue) (henv : env attempt = .response status st et (.ok v))
    (h1 : 200 ≤ status) (h2 : status ≤ 299) (hf : jsFalsy v = true) :
    execLoop env cfg attempt (fuel + 1) lastError =
      ⟨⟨none, some ⟨.empty_response, "Received empty response from OpenFDA API", none⟩⟩,
        1, []⟩ ∧
    jsFalsy .null = true ∧ jsFalsy (.bool false) = true ∧ jsFalsy (.num 0) = true ∧
      jsFalsy (.str "") = true := by
  have hok : responseOk status = true := by
    simp [responseOk]
    omega
  refine ⟨?_, rfl, rfl, rfl, rfl⟩
  simp [execLoop, henv, hok, hf]

/-- Witness for C10: a 200 response whose body is the JSON literal
`false`. -/
theorem request_empty_on_falsy_witness :
    execLoop (fun _ => .response 200 "OK" "" (.ok (.bool false))) DEFAULT_CONFIG 0 (3 + 1)
        none =
      ⟨⟨none, some ⟨.empty_response, "Received empty response from OpenFDA API", none⟩⟩,
        1, []⟩ :=
  (request_empty_on_falsy (fun _ => .response 200 "OK" "" (.ok (.bool false)))
    DEFAULT_CONFIG 0 3 none 200 "OK" "" (.bool false) rfl (by decide) (by decide) rfl).1

/-- Exactly one of `data` and `error` is populated. -/
def exclusiveResult (r : RequestResult) : Prop :=
  (r.data = none ∧ r.error ≠ none) ∨ (r.data ≠ none ∧ r.error = none)

theorem execLoop_exclusive (env : Nat → FetchOutcome) (cfg : RequestConfig) :
    ∀ (fuel attempt : Nat) (lastError : Option ErrorRecord),
      (fuel = 0 → lastError ≠ none) →
      exclusiveResult (execLoop env cfg attempt fuel lastError).result := by
  intro fuel
  induction fuel with
  | zero =>
    intro attempt lastError h
    exact Or.inl ⟨rfl, h rfl⟩
  | succ f ih =>
    intro attempt lastError _
    rw [execLoop]
    cases henv : env attempt with
    | response status st et body =>
      dsimp only
      split
      · split
        · exact Or.inl ⟨rfl, by simp⟩
        · split
          · exact ih (attempt + 1) _ (fun h => by simp)
          · exact Or.inl ⟨rfl, by simp⟩
      · cases body with
        | error pmsg => exact Or.inl ⟨rfl, by simp⟩
        | ok v =>
          dsimp only
          split
          · exact Or.inl ⟨rfl, by simp⟩
          · exact Or.inr ⟨by simp, rfl⟩
    | thrown e =>
      dsimp only
      split
      · exact ih (attempt + 1) _ (fun h => by simp)
      · exact Or.inl ⟨rfl, by simp⟩

/-- C6: every run of `makeOpenFDARequest` returns either parsed data with
a null error or null data with a populated `ErrorRecord` — exactly one of
the two, never both and never neither; the embedding is a total function,
so no terminal path throws or escapes without a populated error. -/
theorem request_result_exclusive (env : Nat → FetchOutcome) (config : ConfigOverride) :
    exclusiveResult (makeOpenFDARequest env config).result :=
  execLoop_exclusive env (mergeConfig config) ((mergeConfig config).maxRetries + 1) 0 none
    (fun h => absurd h (Nat.succ_ne_zero _))

theorem execLoop_attempts_le (env : Nat → FetchOutcome) (cfg : RequestConfig) :
    ∀ (fuel attempt : Nat) (lastError : Option ErrorRecord),
      (execLoop env cfg attempt fuel lastError).attempts ≤ fuel := by
  intro fuel
  induction fuel with
  | zero => intro attempt lastError; exact Nat.le_refl 0
  | succ f ih =>
    intro attempt lastError
    rw [execLoop]
    cases henv : env attempt with
    | response status st et body =>
      dsimp only
      split
      · split
        · exact Nat.succ_le_succ (Nat.zero_le f)
        · split
          · exact Nat.succ_le_succ (ih (attempt + 1) _)
          · exact Nat.succ_le_succ (Nat.zero_le f)
      · cases body with
        | error pmsg => exact Nat.succ_le_succ (Nat.zero_le f)
        | ok v =>
          dsimp only
          split
          · exact Nat.succ_le_succ (Nat.zero_le f)
          · exact Nat.succ_le_succ (Nat.zero_le f)
    | thrown e =>
      dsimp only
      split
      · exact Nat.succ_le_succ (ih (attempt + 1) _)
      · exact Nat.succ_le_succ (Nat.zero_le f)

theorem execLoop_all503 (env : Nat → FetchOutcome) (cfg : RequestConfig) (st et : String)
    (body : Except String JsValue) (henv : ∀ i, env i = .response 503 st et body) :
    ∀ (k attempt : Nat) (lastError : Option ErrorRecord), attempt + k = cfg.maxRetries →
      execLoop env cfg attempt (k + 1) lastError =
        ⟨⟨none, some ⟨.http, httpMessage 503 st, some 503⟩⟩, k + 1,
          (List.range k).map (fun i => cfg.retryDelay * 2 ^ (attempt + i))⟩ := by
  intro k
  induction k with
  | zero =>
    intro attempt lastError hsum
    rw [execLoop, henv attempt]
    dsimp only
    have hnl : ¬ (attempt < cfg.maxRetries ∧
        isRetryableError { status := some ((503 : Nat) : Int) } = true) := by
      intro hc
      omega
    rw [if_pos (by decide), if_neg (by decide), if_neg hnl]
    rfl
  | succ kk ih =>
    intro attempt lastError hsum
    rw [execLoop, henv attempt]
    dsimp only
    have hlt : attempt < cfg.maxRetries ∧
        isRetryableError { status := some ((503 : Nat) : Int) } = true :=
      ⟨by omega, by decide⟩
    rw [if_pos (by decide), if_neg (by decide), if_pos hlt]
    rw [ih (attempt + 1) _ (by omega)]
    have hdel : (List.range (kk + 1)).map (fun i => cfg.retryDelay * 2 ^ (attempt + i)) =
        cfg.retryDelay * 2 ^ attempt ::
          (List.range kk).map (fun i => cfg.retryDelay * 2 ^ (attempt + 1 + i)) := by
      rw [List.range_succ_eq_map, List.map_cons, List.map_map]
      have harg : ((fun i => cfg.retryDelay * 2 ^ (attempt + i)) ∘ Nat.succ) =
          fun i => cfg.retryDelay * 2 ^ (attempt + 1 + i) := by
        funext i
        have : attempt + Nat.succ i = attempt + 1 + i := by omega
        simp [Function.comp, this]
      rw [harg, Nat.add_zero]
    rw [hdel]

/-- C3: every run performs at most `maxRetries + 1` fetch attempts; and
when every attempt yields HTTP 503, the run performs exactly
`maxRetries + 1` attempts, sleeping `retryDelay * 2^i` after attempt `i`
for `i < maxRetries`, then returns the `http` error. -/
theorem request_retry_bound_and_503 (env : Nat → FetchOutcome) (config : ConfigOverride)
    (st et : String) (body : Except String JsValue) :
    (makeOpenFDARequest env config).attempts ≤ (mergeConfig config).maxRetries + 1 ∧
    ((∀ i, env i = .response 503 st et body) →
      makeOpenFDARequest env config =
        ⟨⟨none, some ⟨.http, httpMessage 503 st, some 503⟩⟩,
          (mergeConfig config).maxRetries + 1,
          (List.range (mergeConfig config).maxRetries).map
            (fun i => (mergeConfig config).retryDelay * 2 ^ i)⟩) := by
  constructor
  · exact execLoop_attempts_le env (mergeConfig config) _ 0 none
  · intro henv
    have h503 := execLoop_all503 env (mergeConfig config) st et body henv
      (mergeConfig config).maxRetries 0 none (by omega)
    rw [makeOpenFDARequest]
    rw [h503]
    have harg : (fun i => (mergeConfig config).retryDelay * 2 ^ (0 + i)) =
        fun i => (mergeConfig config).retryDelay * 2 ^ i := by
      funext i
      rw [Nat.zero_add]
    rw [harg]

/-- Witness for C3: an all-503 environment with `maxRetries = 2` performs
exactly 3 attempts with delays `retryDelay, 2*retryDelay`. -/
theorem request_retry_bound_and_503_witness :
    (makeOpenFDARequest (fun _ => .response 503 "Service Unavailable" "oops" (.ok .null))
        { maxRetries := some 2, retryDelay := some 100 }).attempts ≤ 3 ∧
    makeOpenFDARequest (fun _ => .response 503 "Service Unavailable" "oops" (.ok .null))
        { maxRetries := some 2, retryDelay := some 100 } =
      ⟨⟨none, some ⟨.http, httpMessage 503 "Service Unavailable", some 503⟩⟩, 3,
        (List.range 2).map (fun i => 100 * 2 ^ i)⟩ :=
  ⟨(request_retry_bound_and_503
      (fun _ => .response 503 "Service Unavailable" "oops" (.ok .null))
      { maxRetries := some 2, retryDelay := some 100 } "Service Unavailable" "oops"
      (.ok .null)).1,
   (request_retry_bound_and_503
      (fun _ => .response 503 "Service Unavailable" "oops" (.ok .null))
      { maxRetries := some 2, retryDelay := some 100 } "Service Unavailable" "oops"
      (.ok .null)).2 (fun i => rfl)⟩

/-- The retry decision the catch branch makes: `isRetryableError` applied
to the caught error itself. -/
def retryDecision (e : JsError) : Bool :=
  isRetryableError { name := some e.name, message := some e.message, status := e.statusField }

/-- An environment whose every attempt throws a plain exception with no
`status` property. -/
def unknownThrowEnv : Nat → FetchOutcome :=
  fun _ => .thrown { name := "RangeError", message := "boom" }

/-- An environment whose every attempt throws an uncategorized exception
that happens to carry a retryable `status` property. -/
def unknownStatusEnv : Nat → FetchOutcome :=
  fun _ => .thrown { name := "QuotaError", message := "exceeded", statusField := some 503 }

/-- C1 counterexample: under the default config (maxRetries = 3), an
exception that is neither an AbortError nor a fetch TypeError, thrown on
attempt 0 while attempts remain, is classified `unknown` but the run
terminates immediately after one attempt with no backoff sleep — it is
not retried. -/
theorem request_unknown_no_retry_cex :
    (0 : Nat) < (mergeConfig {}).maxRetries ∧
    (makeOpenFDARequest unknownThrowEnv {}).result.error =
      some ⟨.unknown, "Unexpected error: boom", none⟩ ∧
    (makeOpenFDARequest unknownThrowEnv {}).attempts = 1 ∧
    (makeOpenFDARequest unknownThrowEnv {}).delays = [] :=
  ⟨by decide, rfl, rfl, rfl⟩

/-- C1 (amended/corrected): a thrown value that is neither an AbortError
nor a fetch TypeError is classified `unknown`, but it is retried only when
attempts remain AND its own `status` property is retryable (500–599 or
429); an ordinary exception with no such status terminates the run
immediately with the `unknown` error. -/
theorem request_unknown_classification (env : Nat → FetchOutcome) (cfg : RequestConfig)
    (attempt fuel : Nat) (lastError : Option ErrorRecord) (e : JsError)
    (henv : env attempt = .thrown e)
    (hab : e.name ≠ "AbortError")
    (hty : ¬(e.name = "TypeError" ∧ jsIncludesSub "fetch".toList e.message.toList = true)) :
    (classifyCaught e cfg.timeout).type = .unknown ∧
    retryDecision e = (statusInRange e.statusField 500 599 || e.statusField == some 429) ∧
    (attempt < cfg.maxRetries ∧ retryDecision e = true →
      execLoop env cfg attempt (fuel + 1) lastError =
        ⟨(execLoop env cfg (attempt + 1) fuel (some (classifyCaught e cfg.timeout))).result,
          (execLoop env cfg (attempt + 1) fuel (some (classifyCaught e cfg.timeout))).attempts
            + 1,
          cfg.retryDelay * 2 ^ attempt ::
            (execLoop env cfg (attempt + 1) fuel
              (some (classifyCaught e cfg.timeout))).delays⟩) ∧
    (¬(attempt < cfg.maxRetries ∧ retryDecision e = true) →
      execLoop env cfg attempt (fuel + 1) lastError =
        ⟨⟨none, some (classifyCaught e cfg.timeout)⟩, 1, []⟩) := by
  have hcond1 : ¬(some e.name = some "TypeError" ∧
      messageIncludesFetch (some e.message) = true) := by
    intro hc
    exact hty ⟨by simpa using hc.1, by simpa [messageIncludesFetch] using hc.2⟩
  have hcond2 : ¬(some e.name = some "AbortError") := by
    intro hc
    exact hab (by simpa using hc)
  refine ⟨?_, ?_, ?_, ?_⟩
  · rw [classifyCaught, if_neg hab, if_neg hty]
  · unfold retryDecision isRetryableError
    dsimp only
    rw [if_neg hcond1, if_neg hcond2]
    by_cases h5 : statusInRange e.statusField 500 599 = true <;>
      by_cases h4 : e.statusField = some 429 <;> simp [h5, h4]
  · intro h
    unfold retryDecision at h
    rw [execLoop, henv]
    dsimp only
    rw [if_pos h]
  · intro h
    unfold retryDecision at h
    rw [execLoop, henv]
    dsimp only
    rw [if_neg h]

/-- Witness for C1 (amended): a status-503-carrying unknown exception is
retried from attempt 0, while a status-free unknown exception at the last
attempt index terminates with the `unknown` error after one attempt. -/
theorem request_unknown_classification_witness :
    (classifyCaught { name := "QuotaError", message := "exceeded", statusField := some 503 }
        DEFAULT_CONFIG.timeout).type = .unknown ∧
    execLoop unknownStatusEnv DEFAULT_CONFIG 0 (3 + 1) none =
      ⟨(execLoop unknownStatusEnv DEFAULT_CONFIG (0 + 1) 3
          (some (classifyCaught
            { name := "QuotaError", message := "exceeded", statusField := some 503 }
            DEFAULT_CONFIG.timeout))).result,
        (execLoop unknownStatusEnv DEFAULT_CONFIG (0 + 1) 3
          (some (classifyCaught
            { name := "QuotaError", message := "exceeded", statusField := some 503 }
            DEFAULT_CONFIG.timeout))).attempts + 1,
        DEFAULT_CONFIG.retryDelay * 2 ^ 0 ::
          (execLoop unknownStatusEnv DEFAULT_CONFIG (0 + 1) 3
            (some (classifyCaught
              { name := "QuotaError", message := "exceeded", statusField := some 503 }
              DEFAULT_CONFIG.timeout))).delays⟩ ∧
    execLoop unknownThrowEnv DEFAULT_CONFIG 3 (0 + 1) none =
      ⟨⟨none, some (classifyCaught
          { name := "RangeError", message := "boom", statusField := none }
          DEFAULT_CONFIG.timeout)⟩, 1, []⟩ :=
  ⟨(request_unknown_classification unknownStatusEnv DEFAULT_CONFIG 0 3 none
      { name := "QuotaError", message := "exceeded", statusField := some 503 } rfl
      (by decide) (by decide)).1,
   (request_unknown_classification unknownStatusEnv DEFAULT_CONFIG 0 3 none
      { name := "QuotaError", message := "exceeded", statusField := some 503 } rfl
      (by decide) (by decide)).2.2.1 ⟨by decide, by decide⟩,
   (request_unknown_classification unknownThrowEnv DEFAULT_CONFIG 3 0 none
      { name := "RangeError", message := "boom", statusField := none } rfl
      (by decide) (by decide)).2.2.2 (by decide)⟩
